import Mathlib

/-!
Verification of the staged voice-processing workflow of `stt-project`
(`backend/src/core/workflow.py`, `backend/src/core/state.py`,
`backend/src/chains/{cleaning,organize,tagging}_chain.py`,
`backend/src/services/voice_service.py`).

Shallow embedding conventions:
- Python floats (confidences, durations, file sizes) are modelled as `Rat`;
  none of the verified properties depend on floating-point rounding.
- External collaborators (the Whisper STT processor and the three LLM
  chain `run` calls) are parameters of a `Behavior` record; each returns
  `Except String α`, the error case modelling a raised exception whose
  `str` is the carried message.
- `json.loads` (Python stdlib) is likewise a `Behavior` parameter
  `jsonLoads : String → Option Json`: `none` models `json.JSONDecodeError`,
  `some j` models a successful parse to the JSON value `j`.
- Wall-clock reads (`time.time()`) are abstracted: the duration returned by
  a successful `transcribe` is part of its result, and the duration computed
  on the STT failure path is the `sttFailElapsed` parameter.
- `uuid.uuid4()` is abstracted as the `sid` argument of `process_voice`.
- The LangGraph machinery: nodes return partial dict updates which the
  engine merges by key replacement; the embedded node functions perform
  that merge directly (`State → State`). Engine-level failures
  (e.g. recursion-limit) arise in library code outside this repository, so
  `invoke` is modelled by an `EngineOutcome` parameter: `.ok` means invoke
  returned the graph-execution result, `.raise e` means it raised `e`.
-/

/-- Python-style JSON values, the possible results of `json.loads`. -/
inductive Json where
  | null
  | bool (b : Bool)
  | num (n : Int)
  | str (s : String)
  | arr (elems : List Json)
  | obj (fields : List (String × Json))

/-- `VoiceProcessingState` (src/core/state.py): the TypedDict threaded
through the LangGraph nodes. Dicts are association lists. -/
structure VoiceProcessingState where
  audio_file_path : String
  session_id : String
  original_text : String
  stt_confidence : Rat
  cleaned_text : String
  removed_fillers : List String
  organized_story : Json
  story_structure : List (String × List String)
  extracted_tags : List String
  tag_confidence : List (String × Rat)
  processing_steps : List String
  error_messages : List String
  processing_time : List (String × Rat)
  created_at : Rat

/-- The nested `processing_info` dict built by `process_voice`. -/
structure ProcessingInfo where
  steps : List String := []
  stt_confidence : Rat := 0
  removed_fillers : List String := []
  processing_time : List (String × Rat) := []

/-- `ProcessingResult` (src/core/state.py): the dataclass returned to
callers, with the dataclass field defaults. `created_at` (a wall-clock
timestamp never read by the workflow) is omitted. -/
structure ProcessingResult where
  success : Bool
  session_id : String
  original_text : String := ""
  cleaned_text : String := ""
  organized_story : Json := Json.obj []
  tags : List String := []
  processing_info : ProcessingInfo := {}
  error_message : String := ""

/-- The external collaborators called by the workflow (see module header). -/
structure Behavior where
  transcribe : String → Except String (String × Rat × Rat)
  sttFailElapsed : Rat
  cleanRun : String → Except String String
  organizeRun : String → Except String String
  jsonLoads : String → Option Json
  tagRun : String → Except String String

/-- Whether `invoke` on the compiled graph returned normally or raised an
engine-level exception (library machinery outside this repository). -/
inductive EngineOutcome where
  | ok
  | raise (msg : String)

/- ### Small helpers: Python substring test, dict update, dict lookup -/

/-- `leadsWith n h`: the char list `n` is an initial segment of `h`. -/
def leadsWith : List Char → List Char → Bool
  | [], _ => true
  | _ :: _, [] => false
  | a :: as, b :: bs => a = b && leadsWith as bs

/-- Python's `needle in hay` substring test on strings. -/
def containsSeq (hay needle : List Char) : Bool :=
  match hay with
  | [] => needle.isEmpty
  | _ :: rest => leadsWith needle hay || containsSeq rest needle

/-- `needle ∈ hay` for Python strings. -/
def strIn (needle hay : String) : Bool :=
  containsSeq hay.data needle.data

/-- Python's `str.strip()` with no argument: drop leading and trailing
whitespace (the ASCII whitespace characters; Python additionally strips
rarer Unicode whitespace, which never occurs in the texts considered). -/
def pyStrip (s : String) : String :=
  String.mk (((s.data.dropWhile Char.isWhitespace).reverse.dropWhile
    Char.isWhitespace).reverse)

/-- `{**m, k: v}`: Python dict update — replace `k` in place if present,
else append. -/
def dictInsert (m : List (String × Rat)) (k : String) (v : Rat) :
    List (String × Rat) :=
  if m.any (fun p => p.1 = k) then
    m.map (fun p => if p.1 = k then (k, v) else p)
  else m ++ [(k, v)]

/-- `d.get(k)` on a JSON object's field list. -/
def jlookup : List (String × Json) → String → Option Json
  | [], _ => none
  | (k, v) :: rest, key => if k = key then some v else jlookup rest key

/-- Python truthiness of a JSON value. -/
def jsonTruthy : Json → Bool
  | .null => false
  | .bool b => b
  | .num n => n != 0
  | .str s => s ≠ ""
  | .arr l => !l.isEmpty
  | .obj l => !l.isEmpty

/- ### TextCleaningChain.clean (src/chains/cleaning_chain.py) -/

/-- The fixed filler-word list of `TextCleaningChain.clean`. -/
def filler_words : List String := ["음", "어", "그", "뭐지", "그게", "아니", "잠깐"]

/-- The dict returned by `TextCleaningChain.clean`. -/
structure CleanResult where
  cleaned_text : String
  removed_fillers : List String
  reduction_rate : Rat

/-- `TextCleaningChain.clean`: runs the LLM chain, computes the removed
fillers by the source's heuristic, and computes
`reduction_rate = 1 - len(result)/len(text)`. When `text` is empty this
division raises `ZeroDivisionError` (message `"division by zero"`); there
is no guard in the source. -/
def clean (B : Behavior) (text : String) : Except String CleanResult :=
  match B.cleanRun text with
  | .error e => .error e
  | .ok result =>
      if text.length = 0 then .error "division by zero"
      else .ok
        { cleaned_text := pyStrip result
          removed_fillers :=
            filler_words.filter (fun w => strIn w text && !strIn w result)
          reduction_rate := 1 - (result.length : Rat) / (text.length : Rat) }

/- ### StoryOrganizingChain.organize (src/chains/organize_chain.py) -/

/-- The default structure returned by `organize` when `json.loads` raises
`JSONDecodeError`: title, truncated summary, and a single section whose
`content` is the input text. -/
def fallbackStory (text : String) : Json :=
  Json.obj
    [ ("title", .str "사용자 스토리")
    , ("summary", .str (if text.length > 100 then text.take 100 ++ "..." else text))
    , ("sections", .arr
        [ Json.obj
            [ ("section_title", .str "메인 스토리")
            , ("content", .str text)
            , ("key_points", .arr []) ] ]) ]

/-- `StoryOrganizingChain.organize`: runs the LLM chain (exceptions from
the chain propagate: only `json.JSONDecodeError` is caught), then tries
`json.loads`; a parse failure yields the fallback story, a parsed JSON
value is returned as-is, whatever its shape. -/
def organize (B : Behavior) (text : String) : Except String Json :=
  match B.organizeRun text with
  | .error e => .error e
  | .ok result =>
      match B.jsonLoads result with
      | some organized => .ok organized
      | none => .ok (fallbackStory text)

/- ### HashtagExtractionChain.extract_tags (src/chains/tagging_chain.py) -/

/-- A character matched by `\w` in `re.findall(r'#\w+', ...)`. ASCII
alphanumerics and underscore exactly; all non-ASCII scalars are treated as
word characters (an over-approximation of Unicode word characters that is
exact on the Korean-and-ASCII inputs considered here). -/
def isWordChar (c : Char) : Bool :=
  c.isAlphanum || c = '_' || c.val ≥ 0x80

/-- The scanner state for the left-to-right `#\w+` search:
either outside a match (remembering whether the previous character was a
`#` that could open a match) or inside a match holding the word characters
collected so far in reverse. -/
inductive ScanState where
  | outside (sawHash : Bool)
  | inWord (cur : List Char)

/-- Left-to-right, non-overlapping, greedy scan for `#\w+` matches, as
`re.findall` performs: a `#` followed by at least one word character opens
a match, which extends over the maximal run of word characters. -/
def scanTags : ScanState → List Char → List String
  | .outside _, [] => []
  | .inWord cur, [] => [String.mk ('#' :: cur.reverse)]
  | .outside false, c :: rest =>
      scanTags (if c = '#' then .outside true else .outside false) rest
  | .outside true, c :: rest =>
      if isWordChar c then scanTags (.inWord [c]) rest
      else scanTags (if c = '#' then .outside true else .outside false) rest
  | .inWord cur, c :: rest =>
      if isWordChar c then scanTags (.inWord (c :: cur)) rest
      else
        String.mk ('#' :: cur.reverse) ::
          scanTags (if c = '#' then .outside true else .outside false) rest

/-- `re.findall(r'#\w+', result)`. -/
def findHashtags (result : String) : List String :=
  scanTags (.outside false) result.data

/-- `list(dict.fromkeys(tags))`: deduplication keeping the first
occurrence of each element, preserving order. -/
def dedupFirstAux (seen : List String) : List String → List String
  | [] => []
  | x :: xs =>
      if x ∈ seen then dedupFirstAux seen xs
      else x :: dedupFirstAux (x :: seen) xs

/-- Order-preserving first-occurrence deduplication. -/
def dedupFirst (l : List String) : List String := dedupFirstAux [] l

/-- `HashtagExtractionChain.extract_tags`: run the LLM chain, collect the
`#\w+` matches, deduplicate preserving first-seen order, keep at most 8. -/
def extract_tags (B : Behavior) (story : String) : Except String (List String) :=
  match B.tagRun story with
  | .error e => .error e
  | .ok result => .ok ((dedupFirst (findHashtags result)).take 8)

/- ### The LangGraph nodes (VoiceProcessingWorkflow._create_workflow) -/

/-- The dummy text substituted by `stt_node` when `transcribe` raises. -/
def sttDummyText : String :=
  "STT 처리 실패로 인한 더미 텍스트입니다. 음성 인식이 정상적으로 작동하지 않았습니다."

/-- `stt_node`: transcribe the audio file; on success record text,
confidence and the STT duration; on exception substitute the dummy text,
zero confidence, and append one error and the `stt_failed` step. The
returned partial dict is merged by key replacement. -/
def stt_node (B : Behavior) (s : VoiceProcessingState) : VoiceProcessingState :=
  match B.transcribe s.audio_file_path with
  | .ok (text, confidence, processing_time) =>
      { s with
        original_text := text
        stt_confidence := confidence
        processing_steps := s.processing_steps ++ ["stt_complete"]
        processing_time := dictInsert s.processing_time "stt" processing_time }
  | .error e =>
      { s with
        original_text := sttDummyText
        stt_confidence := 0
        error_messages := s.error_messages ++ ["STT 오류: " ++ e]
        processing_steps := s.processing_steps ++ ["stt_failed"]
        processing_time := dictInsert s.processing_time "stt" B.sttFailElapsed }

/-- `cleaning_node`: clean the recognized text; on exception append one
error and the `cleaning_failed` step, leaving every other field (in
particular `cleaned_text`) unchanged. -/
def cleaning_node (B : Behavior) (s : VoiceProcessingState) : VoiceProcessingState :=
  match clean B s.original_text with
  | .ok result =>
      { s with
        cleaned_text := result.cleaned_text
        removed_fillers := result.removed_fillers
        processing_steps := s.processing_steps ++ ["cleaning_complete"] }
  | .error e =>
      { s with
        error_messages := s.error_messages ++ ["정리 오류: " ++ e]
        processing_steps := s.processing_steps ++ ["cleaning_failed"] }

/-- `organizing_node`: structure the cleaned text; on exception append one
error and the `organizing_failed` step. -/
def organizing_node (B : Behavior) (s : VoiceProcessingState) : VoiceProcessingState :=
  match organize B s.cleaned_text with
  | .ok organized =>
      { s with
        organized_story := organized
        processing_steps := s.processing_steps ++ ["organizing_complete"] }
  | .error e =>
      { s with
        error_messages := s.error_messages ++ ["구조화 오류: " ++ e]
        processing_steps := s.processing_steps ++ ["organizing_failed"] }

/-- `section["content"]` for one element of the `sections` list:
a non-object element or a missing/non-string `content` raises
(`TypeError`/`KeyError`), since `" ".join` needs strings. -/
def sectionContent : Json → Except String String
  | .obj fields =>
      match jlookup fields "content" with
      | some (.str s) => .ok s
      | some _ => .error "TypeError"
      | none => .error "KeyError"
  | _ => .error "TypeError"

/-- `" ".join([section["content"] for section in sections])`; iterating a
non-list `sections` value raises `TypeError`. -/
def joinSectionContents : Json → Except String String
  | .arr elems => do
      let contents ← elems.mapM sectionContent
      .ok (String.intercalate " " contents)
  | _ => .error "TypeError"

/-- The `story_text` / `story_content` computation shared by
`tagging_node` and the fallback path: if `organized.get("sections")` is
truthy, join the section contents, else use the cleaned text; calling
`.get` on a non-dict raises `AttributeError`. -/
def storyContentOf (organized : Json) (cleaned : String) : Except String String :=
  match organized with
  | .obj fields =>
      match jlookup fields "sections" with
      | none => .ok cleaned
      | some v => if jsonTruthy v then joinSectionContents v else .ok cleaned
  | _ => .error "AttributeError"

/-- The `organized.get("sections")` read, as an accessor on a JSON
document (used to state shape properties of structured stories). -/
def storySections : Json → Option Json
  | .obj fields => jlookup fields "sections"
  | _ => none

/-- `tagging_node`: extract hashtags from the structured story's
concatenated section contents (or the cleaned text); on any exception
append one error and the `tagging_failed` step. -/
def tagging_node (B : Behavior) (s : VoiceProcessingState) : VoiceProcessingState :=
  match storyContentOf s.organized_story s.cleaned_text >>= extract_tags B with
  | .ok tags =>
      { s with
        extracted_tags := tags
        processing_steps := s.processing_steps ++ ["tagging_complete"] }
  | .error e =>
      { s with
        error_messages := s.error_messages ++ ["태깅 오류: " ++ e]
        processing_steps := s.processing_steps ++ ["tagging_failed"] }

/-- `quality_check_node`: the conditional-edge decision function, a pure
function of the state. Errors recorded → `failed`; else cleaned text
trimmed to fewer than 10 characters → `insufficient_content`; else
`success`. (The `retry_stt` branch is commented out in the source.) -/
def quality_check_node (s : VoiceProcessingState) : String :=
  if s.error_messages ≠ [] then "failed"
  else if (pyStrip s.cleaned_text).length < 10 then "insufficient_content"
  else "success"

/-- The conditional-edge mapping registered for the `tagger` node:
`success`, `insufficient_content` and `failed` all map to `END` (`none`);
any other key would raise a `KeyError` in the graph machinery. -/
def edgeTarget (outcome : String) : Except String (Option String) :=
  if outcome = "success" then .ok none
  else if outcome = "insufficient_content" then .ok none
  else if outcome = "failed" then .ok none
  else .error "KeyError"

/-- One pass of the compiled graph: the four nodes in the wired order
`stt → cleaner → organizer → tagger`. -/
def runGraph (B : Behavior) (s : VoiceProcessingState) : VoiceProcessingState :=
  tagging_node B (organizing_node B (cleaning_node B (stt_node B s)))

/-- Graph execution including the conditional edge after `tagger`: the
quality gate is consulted and its outcome looked up in the edge map; all
its outcomes map to `END`, so execution terminates with the post-tagger
state. -/
def runGraphE (B : Behavior) (s : VoiceProcessingState) :
    Except String VoiceProcessingState := do
  let final := runGraph B s
  let _ ← edgeTarget (quality_check_node final)
  .ok final

/- ### VoiceProcessingWorkflow.process_voice and the fallback path -/

/-- The initial state built at the top of `process_voice` (`created_at`,
a wall-clock timestamp, is abstracted to 0). -/
def initialState (audio_file_path session_id : String) : VoiceProcessingState :=
  { audio_file_path := audio_file_path
    session_id := session_id
    original_text := ""
    stt_confidence := 0
    cleaned_text := ""
    removed_fillers := []
    organized_story := Json.obj []
    story_structure := []
    extracted_tags := []
    tag_confidence := []
    processing_steps := []
    error_messages := []
    processing_time := []
    created_at := 0 }

/-- The `ProcessingResult` built from the state `invoke` returned. -/
def assembleResult (session_id : String) (st : VoiceProcessingState) :
    ProcessingResult :=
  { success := st.error_messages.length = 0
    session_id := session_id
    original_text := st.original_text
    cleaned_text := st.cleaned_text
    organized_story := st.organized_story
    tags := st.extracted_tags
    processing_info :=
      { steps := st.processing_steps
        stt_confidence := st.stt_confidence
        removed_fillers := st.removed_fillers
        processing_time := st.processing_time }
    error_message := String.intercalate "; " st.error_messages }

/-- The fallback executor: the four stages re-run directly and
sequentially, with no per-stage exception capture — the first exception
aborts the chain and propagates. On success it reports `success := True`
with the fixed step list and only the STT duration. -/
def fallbackRun (B : Behavior) (audio_file_path session_id : String) :
    Except String ProcessingResult := do
  let (stt_text, confidence, processing_time) ← B.transcribe audio_file_path
  let cleaned_result ← clean B stt_text
  let cleaned_text := cleaned_result.cleaned_text
  let organized_story ← organize B cleaned_text
  let story_content ← storyContentOf organized_story cleaned_text
  let tags ← extract_tags B story_content
  .ok
    { success := true
      session_id := session_id
      original_text := stt_text
      cleaned_text := cleaned_text
      organized_story := organized_story
      tags := tags
      processing_info :=
        { steps := ["stt_complete", "cleaning_complete",
                    "organizing_complete", "tagging_complete"]
          stt_confidence := confidence
          removed_fillers := cleaned_result.removed_fillers
          processing_time := [("stt", processing_time)] }
      error_message := "" }

/-- `VoiceProcessingWorkflow.process_voice`: invoke the compiled graph;
if invoke raises an engine-level exception run the fallback executor; if
the fallback also raises, return a failed result whose message
concatenates both exception descriptions. Never raises to its caller. -/
def process_voice (B : Behavior) (eng : EngineOutcome)
    (audio_file_path session_id : String) : ProcessingResult :=
  match eng with
  | .ok => assembleResult session_id (runGraph B (initialState audio_file_path session_id))
  | .raise e =>
      match fallbackRun B audio_file_path session_id with
      | .ok r => r
      | .error fallback_error =>
          { success := false
            session_id := session_id
            error_message := "워크플로우 실행 오류: " ++ e ++ ", Fallback 오류: " ++ fallback_error }

/- ### VoiceProcessingService.process_audio_file (services/voice_service.py) -/

/-- The filesystem facts `process_audio_file` checks before running:
`Path(p).exists()` and `st_size / (1024*1024)`. -/
structure FileInfo where
  fileExists : Bool
  sizeMB : Rat

/-- The validation result for a missing/unreadable file. -/
def missingFileResult : ProcessingResult :=
  { success := false, session_id := "", error_message := "오디오 파일을 찾을 수 없습니다." }

/-- The validation result for an oversized file (the `:.1f` float
formatting of the two sizes is abstracted by `toString` on `Rat`). -/
def oversizedResult (sizeMB maxMB : Rat) : ProcessingResult :=
  { success := false
    session_id := ""
    error_message :=
      "파일 크기가 너무 큽니다. (" ++ toString sizeMB ++ "MB > " ++ toString maxMB ++ "MB)" }

/-- `VoiceProcessingService.process_audio_file`: validate existence then
size against `Config.MAX_AUDIO_SIZE_MB`, failing fast with a distinct
result before any stage executes; otherwise run the workflow. -/
def process_audio_file (B : Behavior) (eng : EngineOutcome) (fi : FileInfo)
    (maxAudioSizeMB : Rat) (audio_file_path session_id : String) : ProcessingResult :=
  if !fi.fileExists then missingFileResult
  else if fi.sizeMB > maxAudioSizeMB then oversizedResult fi.sizeMB maxAudioSizeMB
  else process_voice B eng audio_file_path session_id

/- ### Concrete collaborator behaviors used to instantiate the theorems -/

/-- A behavior on which every collaborator call succeeds (the structuring
chain returns non-JSON prose, so `organize` takes its documented fallback). -/
def demoOkB : Behavior where
  transcribe _ := .ok ("오늘은 정말 좋은 하루였습니다 매우 행복했습니다", 9/10, 2)
  sttFailElapsed := 1
  cleanRun _ := .ok "오늘은 정말 좋은 하루였습니다"
  organizeRun _ := .ok "구조화된 이야기 (not JSON)"
  jsonLoads _ := none
  tagRun _ := .ok "#하루 #행복"

/-- A behavior whose STT collaborator raises and whose later collaborators
all succeed. -/
def sttFailB : Behavior where
  transcribe _ := .error "whisper crashed"
  sttFailElapsed := 1
  cleanRun _ := .ok "더미 텍스트 정리 결과입니다"
  organizeRun _ := .ok "프리텍스트 (not JSON)"
  jsonLoads _ := none
  tagRun _ := .ok "#더미 #텍스트"

/-- A behavior whose cleaning collaborator raises while STT succeeds. -/
def cleanFailB : Behavior where
  transcribe _ := .ok ("오늘 하루는 매우 길었다", 9/10, 2)
  sttFailElapsed := 1
  cleanRun _ := .error "LLM connection error"
  organizeRun _ := .ok "x"
  jsonLoads _ := none
  tagRun _ := .ok "#x"

/-- A behavior whose STT returns an empty transcription and whose cleaning
collaborator succeeds. -/
def emptySttB : Behavior where
  transcribe _ := .ok ("", 1/2, 1)
  sttFailElapsed := 1
  cleanRun _ := .ok "정리됨"
  organizeRun _ := .ok "x"
  jsonLoads _ := none
  tagRun _ := .ok ""

/-- A behavior whose tagging collaborator produces more than 8 raw
hashtag matches with a duplicate. -/
def manyTagsB : Behavior where
  transcribe _ := .ok ("t", 1, 1)
  sttFailElapsed := 1
  cleanRun _ := .ok "t"
  organizeRun _ := .ok "x"
  jsonLoads _ := none
  tagRun _ := .ok "#a #b #a #c #d #e #f #g #h #i #j"

/-- A behavior whose structuring collaborator returns `"[]"`, which
`json.loads` parses to the empty JSON array (valid JSON, but not the
expected document shape). -/
def wrongShapeB : Behavior where
  transcribe _ := .ok ("t", 1, 1)
  sttFailElapsed := 1
  cleanRun _ := .ok "t"
  organizeRun _ := .ok "[]"
  jsonLoads s := if s = "[]" then some (Json.arr []) else none
  tagRun _ := .ok ""

/- ### Equation lemmas for the nodes -/

theorem stt_node_ok (B : Behavior) (s : VoiceProcessingState)
    (text : String) (conf pt : Rat)
    (h : B.transcribe s.audio_file_path = .ok (text, conf, pt)) :
    stt_node B s =
      { s with
        original_text := text
        stt_confidence := conf
        processing_steps := s.processing_steps ++ ["stt_complete"]
        processing_time := dictInsert s.processing_time "stt" pt } := by
  simp [stt_node, h]

theorem stt_node_err (B : Behavior) (s : VoiceProcessingState) (e : String)
    (h : B.transcribe s.audio_file_path = .error e) :
    stt_node B s =
      { s with
        original_text := sttDummyText
        stt_confidence := 0
        error_messages := s.error_messages ++ ["STT 오류: " ++ e]
        processing_steps := s.processing_steps ++ ["stt_failed"]
        processing_time := dictInsert s.processing_time "stt" B.sttFailElapsed } := by
  simp [stt_node, h]

theorem clean_ok (B : Behavior) (text result : String)
    (h : B.cleanRun text = .ok result) (hne : text ≠ "") :
    clean B text = .ok
      { cleaned_text := pyStrip result
        removed_fillers :=
          filler_words.filter (fun w => strIn w text && !strIn w result)
        reduction_rate := 1 - (result.length : Rat) / (text.length : Rat) } := by
  have : text.length ≠ 0 := fun hl => hne (String.ext (List.length_eq_zero.mp hl))
  simp [clean, h, this]

theorem cleaning_node_ok (B : Behavior) (s : VoiceProcessingState)
    (r : CleanResult) (h : clean B s.original_text = .ok r) :
    cleaning_node B s =
      { s with
        cleaned_text := r.cleaned_text
        removed_fillers := r.removed_fillers
        processing_steps := s.processing_steps ++ ["cleaning_complete"] } := by
  simp [cleaning_node, h]

theorem cleaning_node_err (B : Behavior) (s : VoiceProcessingState) (e : String)
    (h : clean B s.original_text = .error e) :
    cleaning_node B s =
      { s with
        error_messages := s.error_messages ++ ["정리 오류: " ++ e]
        processing_steps := s.processing_steps ++ ["cleaning_failed"] } := by
  simp [cleaning_node, h]

theorem organizing_node_ok (B : Behavior) (s : VoiceProcessingState)
    (j : Json) (h : organize B s.cleaned_text = .ok j) :
    organizing_node B s =
      { s with
        organized_story := j
        processing_steps := s.processing_steps ++ ["organizing_complete"] } := by
  simp [organizing_node, h]

theorem organizing_node_err (B : Behavior) (s : VoiceProcessingState) (e : String)
    (h : organize B s.cleaned_text = .error e) :
    organizing_node B s =
      { s with
        error_messages := s.error_messages ++ ["구조화 오류: " ++ e]
        processing_steps := s.processing_steps ++ ["organizing_failed"] } := by
  simp [organizing_node, h]

theorem tagging_node_ok (B : Behavior) (s : VoiceProcessingState)
    (sc : String) (tags : List String)
    (h1 : storyContentOf s.organized_story s.cleaned_text = .ok sc)
    (h2 : extract_tags B sc = .ok tags) :
    tagging_node B s =
      { s with
        extracted_tags := tags
        processing_steps := s.processing_steps ++ ["tagging_complete"] } := by
  simp [tagging_node, h1, h2, Bind.bind, Except.bind]

theorem tagging_node_err (B : Behavior) (s : VoiceProcessingState) (e : String)
    (h : storyContentOf s.organized_story s.cleaned_text >>= extract_tags B = .error e) :
    tagging_node B s =
      { s with
        error_messages := s.error_messages ++ ["태깅 오류: " ++ e]
        processing_steps := s.processing_steps ++ ["tagging_failed"] } := by
  simp [tagging_node, h]

/- ### Per-node trace and diagnostics lemmas -/

theorem stt_node_step (B : Behavior) (s : VoiceProcessingState) :
    ∃ m, (stt_node B s).processing_steps = s.processing_steps ++ [m] ∧
      (m = "stt_complete" ∨ m = "stt_failed") := by
  cases h : B.transcribe s.audio_file_path with
  | ok t =>
      obtain ⟨text, conf, pt⟩ := t
      exact ⟨"stt_complete", by rw [stt_node_ok B s text conf pt h], Or.inl rfl⟩
  | error e =>
      exact ⟨"stt_failed", by rw [stt_node_err B s e h], Or.inr rfl⟩

theorem cleaning_node_step (B : Behavior) (s : VoiceProcessingState) :
    ∃ m, (cleaning_node B s).processing_steps = s.processing_steps ++ [m] ∧
      (m = "cleaning_complete" ∨ m = "cleaning_failed") := by
  cases h : clean B s.original_text with
  | ok r => exact ⟨"cleaning_complete", by rw [cleaning_node_ok B s r h], Or.inl rfl⟩
  | error e => exact ⟨"cleaning_failed", by rw [cleaning_node_err B s e h], Or.inr rfl⟩

theorem organizing_node_step (B : Behavior) (s : VoiceProcessingState) :
    ∃ m, (organizing_node B s).processing_steps = s.processing_steps ++ [m] ∧
      (m = "organizing_complete" ∨ m = "organizing_failed") := by
  cases h : organize B s.cleaned_text with
  | ok j => exact ⟨"organizing_complete", by rw [organizing_node_ok B s j h], Or.inl rfl⟩
  | error e => exact ⟨"organizing_failed", by rw [organizing_node_err B s e h], Or.inr rfl⟩

theorem tagging_node_step (B : Behavior) (s : VoiceProcessingState) :
    ∃ m, (tagging_node B s).processing_steps = s.processing_steps ++ [m] ∧
      (m = "tagging_complete" ∨ m = "tagging_failed") := by
  cases h : storyContentOf s.organized_story s.cleaned_text >>= extract_tags B with
  | ok tags =>
      refine ⟨"tagging_complete", ?_, Or.inl rfl⟩
      simp [tagging_node, h]
  | error e => exact ⟨"tagging_failed", by rw [tagging_node_err B s e h], Or.inr rfl⟩

theorem cleaning_node_time (B : Behavior) (s : VoiceProcessingState) :
    (cleaning_node B s).processing_time = s.processing_time := by
  cases h : clean B s.original_text with
  | ok r => rw [cleaning_node_ok B s r h]
  | error e => rw [cleaning_node_err B s e h]

theorem organizing_node_time (B : Behavior) (s : VoiceProcessingState) :
    (organizing_node B s).processing_time = s.processing_time := by
  cases h : organize B s.cleaned_text with
  | ok j => rw [organizing_node_ok B s j h]
  | error e => rw [organizing_node_err B s e h]

theorem tagging_node_time (B : Behavior) (s : VoiceProcessingState) :
    (tagging_node B s).processing_time = s.processing_time := by
  cases h : storyContentOf s.organized_story s.cleaned_text >>= extract_tags B with
  | ok tags => simp [tagging_node, h]
  | error e => rw [tagging_node_err B s e h]

theorem stt_node_time (B : Behavior) (s : VoiceProcessingState) :
    ∃ v, (stt_node B s).processing_time = dictInsert s.processing_time "stt" v := by
  cases h : B.transcribe s.audio_file_path with
  | ok t =>
      obtain ⟨text, conf, pt⟩ := t
      exact ⟨pt, by rw [stt_node_ok B s text conf pt h]⟩
  | error e => exact ⟨B.sttFailElapsed, by rw [stt_node_err B s e h]⟩

/-- The quality gate only ever returns one of the three registered edge
keys, so the conditional-edge lookup never raises. -/
theorem edgeTarget_quality (s : VoiceProcessingState) :
    edgeTarget (quality_check_node s) = .ok none := by
  unfold quality_check_node edgeTarget
  split
  · simp
  · split <;> simp

/- ### Deduplication lemmas (dict.fromkeys) -/

theorem dedupFirstAux_sublist (l : List String) :
    ∀ seen, (dedupFirstAux seen l).Sublist l := by
  induction l with
  | nil => intro seen; simp [dedupFirstAux]
  | cons x xs ih =>
      intro seen
      by_cases h : x ∈ seen
      · simp only [dedupFirstAux, if_pos h]
        exact (ih seen).trans (List.sublist_cons_self x xs)
      · simp only [dedupFirstAux, if_neg h]
        exact (ih (x :: seen)).cons₂ x

theorem dedupFirstAux_not_mem_seen (l : List String) :
    ∀ seen y, y ∈ dedupFirstAux seen l → y ∉ seen := by
  induction l with
  | nil => intro seen y h; simp [dedupFirstAux] at h
  | cons x xs ih =>
      intro seen y h
      by_cases hx : x ∈ seen
      · simp only [dedupFirstAux, if_pos hx] at h
        exact ih seen y h
      · simp only [dedupFirstAux, if_neg hx, List.mem_cons] at h
        rcases h with rfl | h
        · exact hx
        · have := ih (x :: seen) y h
          exact fun hy => this (List.mem_cons_of_mem x hy)

theorem dedupFirstAux_nodup (l : List String) :
    ∀ seen, (dedupFirstAux seen l).Nodup := by
  induction l with
  | nil => intro seen; simp [dedupFirstAux]
  | cons x xs ih =>
      intro seen
      by_cases hx : x ∈ seen
      · simp only [dedupFirstAux, if_pos hx]; exact ih seen
      · simp only [dedupFirstAux, if_neg hx]
        refine List.nodup_cons.mpr ⟨?_, ih (x :: seen)⟩
        intro hmem
        exact dedupFirstAux_not_mem_seen xs (x :: seen) x hmem (List.mem_cons_self x seen)

theorem mem_dedupFirstAux (l : List String) :
    ∀ seen x, x ∈ l → x ∉ seen → x ∈ dedupFirstAux seen l := by
  induction l with
  | nil => intro seen x h; simp at h
  | cons a as ih =>
      intro seen x hmem hseen
      rcases List.mem_cons.mp hmem with rfl | h
      · simp only [dedupFirstAux, if_neg hseen]
        exact List.mem_cons_self x _
      · by_cases ha : a ∈ seen
        · simp only [dedupFirstAux, if_pos ha]
          exact ih seen x h hseen
        · simp only [dedupFirstAux, if_neg ha]
          by_cases hax : x = a
          · subst hax; exact List.mem_cons_self x _
          · exact List.mem_cons_of_mem a
              (ih (a :: seen) x h (by simp [hseen, hax]))

theorem dedupFirst_nodup (l : List String) : (dedupFirst l).Nodup :=
  dedupFirstAux_nodup l []

theorem dedupFirst_sublist (l : List String) : (dedupFirst l).Sublist l :=
  dedupFirstAux_sublist l []

theorem mem_dedupFirst (l : List String) (x : String) (h : x ∈ l) :
    x ∈ dedupFirst l :=
  mem_dedupFirstAux l [] x h (List.not_mem_nil x)

/- ### Claim theorems -/

/-- C2: the quality gate, evaluated after the tagging stage as a pure
function of the state, returns `failed` whenever the accumulated error
list is non-empty; otherwise `insufficient_content` whenever the cleaned
text stripped of surrounding whitespace has fewer than 10 characters;
otherwise `success`. With no errors, cleaned text
`"Hello world, this is fine."` yields `success` and `"Hi."` yields
`insufficient_content`. -/
theorem C2_quality_gate (s : VoiceProcessingState) :
    (s.error_messages ≠ [] → quality_check_node s = "failed") ∧
    (s.error_messages = [] → (pyStrip s.cleaned_text).length < 10 →
      quality_check_node s = "insufficient_content") ∧
    (s.error_messages = [] → ¬ (pyStrip s.cleaned_text).length < 10 →
      quality_check_node s = "success") ∧
    (s.error_messages = [] → s.cleaned_text = "Hello world, this is fine." →
      quality_check_node s = "success") ∧
    (s.error_messages = [] → s.cleaned_text = "Hi." →
      quality_check_node s = "insufficient_content") := by
  refine ⟨?_, ?_, ?_, ?_, ?_⟩
  · intro h; simp [quality_check_node, h]
  · intro h1 h2; simp [quality_check_node, h1, h2]
  · intro h1 h2; simp [quality_check_node, h1, h2]
  · intro h1 h2
    simp only [quality_check_node, h1, h2]
    decide
  · intro h1 h2
    simp only [quality_check_node, h1, h2]
    decide

/-- Witness for C2 at the two concrete cleaned texts of the claim. -/
theorem C2_quality_gate_witness :
    quality_check_node
      { initialState "a.wav" "sid" with cleaned_text := "Hello world, this is fine." } =
      "success" ∧
    quality_check_node
      { initialState "a.wav" "sid" with cleaned_text := "Hi." } =
      "insufficient_content" :=
  ⟨(C2_quality_gate _).2.2.2.1 rfl rfl, (C2_quality_gate _).2.2.2.2 rfl rfl⟩

/-- C3: the Result assembled from the terminal graph-path state has
`success = true` iff the accumulated error list is empty; it copies the
four output fields and the diagnostics from the terminal state, and when
not successful its `error_message` is the error list joined with `"; "`
(the source in fact joins unconditionally, which is the empty string when
there are no errors). -/
theorem C3_result_assembler (B : Behavior) (audio sid : String) :
    ((assembleResult sid (runGraph B (initialState audio sid))).success = true ↔
      (runGraph B (initialState audio sid)).error_messages = []) ∧
    (assembleResult sid (runGraph B (initialState audio sid))).original_text =
      (runGraph B (initialState audio sid)).original_text ∧
    (assembleResult sid (runGraph B (initialState audio sid))).cleaned_text =
      (runGraph B (initialState audio sid)).cleaned_text ∧
    (assembleResult sid (runGraph B (initialState audio sid))).organized_story =
      (runGraph B (initialState audio sid)).organized_story ∧
    (assembleResult sid (runGraph B (initialState audio sid))).tags =
      (runGraph B (initialState audio sid)).extracted_tags ∧
    (assembleResult sid (runGraph B (initialState audio sid))).processing_info.steps =
      (runGraph B (initialState audio sid)).processing_steps ∧
    (assembleResult sid (runGraph B (initialState audio sid))).processing_info.stt_confidence =
      (runGraph B (initialState audio sid)).stt_confidence ∧
    (assembleResult sid (runGraph B (initialState audio sid))).processing_info.removed_fillers =
      (runGraph B (initialState audio sid)).removed_fillers ∧
    (assembleResult sid (runGraph B (initialState audio sid))).processing_info.processing_time =
      (runGraph B (initialState audio sid)).processing_time ∧
    ((assembleResult sid (runGraph B (initialState audio sid))).success = false →
      (assembleResult sid (runGraph B (initialState audio sid))).error_message =
        String.intercalate "; " (runGraph B (initialState audio sid)).error_messages) := by
  refine ⟨?_, rfl, rfl, rfl, rfl, rfl, rfl, rfl, rfl, fun _ => rfl⟩
  simp [assembleResult, List.length_eq_zero]

/-- Witness for C3 on a concrete all-success behavior. -/
theorem C3_result_assembler_witness :
    (assembleResult "sid" (runGraph demoOkB (initialState "a.wav" "sid"))).success = true ∧
    (assembleResult "sid" (runGraph demoOkB (initialState "a.wav" "sid"))).tags =
      (runGraph demoOkB (initialState "a.wav" "sid")).extracted_tags :=
  ⟨(C3_result_assembler demoOkB "a.wav" "sid").1.mpr rfl,
   (C3_result_assembler demoOkB "a.wav" "sid").2.2.2.2.1⟩

/-- C6 counterexample: on a run where all four stages execute and
complete, the stage-durations map holds a single entry (the STT
duration), not one entry per executed stage. -/
theorem C6_counterexample :
    (runGraph demoOkB (initialState "a.wav" "sid")).processing_steps =
      ["stt_complete", "cleaning_complete", "organizing_complete", "tagging_complete"] ∧
    (runGraph demoOkB (initialState "a.wav" "sid")).processing_time = [("stt", 2)] ∧
    (runGraph demoOkB (initialState "a.wav" "sid")).processing_time.length = 1 :=
  ⟨rfl, rfl, rfl⟩

/-- C6 (amended): only the recognition stage records its wall-clock
duration into the stage-durations map — the cleanup, structuring and
tag-extraction nodes never touch `processing_time` — so after a graph-path
run the map contains exactly the single key `"stt"`. -/
theorem C6_stage_durations (B : Behavior) (audio sid : String) :
    ((runGraph B (initialState audio sid)).processing_time).map Prod.fst = ["stt"] := by
  obtain ⟨v, hv⟩ := stt_node_time B (initialState audio sid)
  show ((tagging_node B (organizing_node B (cleaning_node B
    (stt_node B (initialState audio sid))))).processing_time).map Prod.fst = ["stt"]
  rw [tagging_node_time, organizing_node_time, cleaning_node_time, hv]
  simp [initialState, dictInsert]

/-- C9: on the graph path the conditional-edge lookup never raises (the
gate's outcome is always a registered key), and for every collaborator
behavior the terminal trace has exactly one entry per stage in pipeline
order — the stage's `_complete` or `_failed` marker — and exactly the four
`_complete` names when every stage succeeds. -/
theorem C9_completed_stages (B : Behavior) (audio sid : String) :
    (runGraphE B (initialState audio sid) = .ok (runGraph B (initialState audio sid))) ∧
    (∃ m1 m2 m3 m4,
      (runGraph B (initialState audio sid)).processing_steps = [m1, m2, m3, m4] ∧
      (m1 = "stt_complete" ∨ m1 = "stt_failed") ∧
      (m2 = "cleaning_complete" ∨ m2 = "cleaning_failed") ∧
      (m3 = "organizing_complete" ∨ m3 = "organizing_failed") ∧
      (m4 = "tagging_complete" ∨ m4 = "tagging_failed")) ∧
    (∀ text conf pt cr j sc tg,
      B.transcribe audio = .ok (text, conf, pt) →
      clean B text = .ok cr →
      organize B cr.cleaned_text = .ok j →
      storyContentOf j cr.cleaned_text = .ok sc →
      B.tagRun sc = .ok tg →
      (runGraph B (initialState audio sid)).processing_steps =
        ["stt_complete", "cleaning_complete", "organizing_complete", "tagging_complete"]) := by
  refine ⟨?_, ?_, ?_⟩
  · simp [runGraphE, edgeTarget_quality, Bind.bind, Except.bind]
  · obtain ⟨m1, h1, p1⟩ := stt_node_step B (initialState audio sid)
    obtain ⟨m2, h2, p2⟩ := cleaning_node_step B (stt_node B (initialState audio sid))
    obtain ⟨m3, h3, p3⟩ :=
      organizing_node_step B (cleaning_node B (stt_node B (initialState audio sid)))
    obtain ⟨m4, h4, p4⟩ := tagging_node_step B
      (organizing_node B (cleaning_node B (stt_node B (initialState audio sid))))
    refine ⟨m1, m2, m3, m4, ?_, p1, p2, p3, p4⟩
    show (tagging_node B (organizing_node B (cleaning_node B
      (stt_node B (initialState audio sid))))).processing_steps = [m1, m2, m3, m4]
    rw [h4, h3, h2, h1]
    simp [initialState]
  · intro text conf pt cr j sc tg h1 h2 h3 h4 h5
    have h5' : extract_tags B sc = .ok ((dedupFirst (findHashtags tg)).take 8) := by
      simp [extract_tags, h5]
    show (tagging_node B (organizing_node B (cleaning_node B
      (stt_node B (initialState audio sid))))).processing_steps = _
    rw [stt_node_ok B (initialState audio sid) text conf pt h1]
    rw [cleaning_node_ok B _ cr h2]
    rw [organizing_node_ok B _ j h3]
    rw [tagging_node_ok B _ sc ((dedupFirst (findHashtags tg)).take 8) h4 h5']
    simp [initialState]

/-- Witness for C9 on a concrete all-success behavior: instantiates the
all-stages-succeed branch. -/
theorem C9_completed_stages_witness :
    demoOkB.transcribe "a.wav" =
      .ok ("오늘은 정말 좋은 하루였습니다 매우 행복했습니다", 9/10, 2) ∧
    (runGraph demoOkB (initialState "a.wav" "sid")).processing_steps =
      ["stt_complete", "cleaning_complete", "organizing_complete", "tagging_complete"] :=
  ⟨rfl,
    (C9_completed_stages demoOkB "a.wav" "sid").2.2
      "오늘은 정말 좋은 하루였습니다 매우 행복했습니다" (9/10) 2
      { cleaned_text := "오늘은 정말 좋은 하루였습니다"
        removed_fillers := []
        reduction_rate :=
          1 - (("오늘은 정말 좋은 하루였습니다" : String).length : Rat) /
            (("오늘은 정말 좋은 하루였습니다 매우 행복했습니다" : String).length : Rat) }
      (fallbackStory "오늘은 정말 좋은 하루였습니다")
      "오늘은 정말 좋은 하루였습니다" "#하루 #행복"
      rfl rfl rfl rfl rfl⟩

/-- C4 counterexample: when the cleanup collaborator raises, the run
continues but with NO substitute data — `cleaned_text` stays at its
initial empty value, so the structuring stage (whose input is
`cleaned_text`) receives an empty field, contrary to the claim that no
downstream stage receives an empty or null input. -/
theorem C4_counterexample :
    (cleaning_node cleanFailB (stt_node cleanFailB (initialState "a.wav" "sid"))).cleaned_text
      = "" ∧
    (cleaning_node cleanFailB (stt_node cleanFailB (initialState "a.wav" "sid"))).error_messages
      = ["정리 오류: LLM connection error"] ∧
    (cleaning_node cleanFailB (stt_node cleanFailB (initialState "a.wav" "sid"))).processing_steps
      = ["stt_complete", "cleaning_failed"] :=
  ⟨rfl, rfl, rfl⟩

/-- C4 (amended): an internal failure in any stage is caught inside the
stage function, appends exactly one entry to the error list and one step
marker, and the run continues through all four stages; but only the
recognition stage substitutes non-empty placeholder data — the cleanup,
structuring and tagging stages leave all their output fields unchanged on
failure, so a downstream stage can receive an empty field. -/
theorem C4_stage_failure_capture (B : Behavior) (s : VoiceProcessingState) (e : String) :
    (B.transcribe s.audio_file_path = .error e →
      stt_node B s =
        { s with
          original_text := sttDummyText
          stt_confidence := 0
          error_messages := s.error_messages ++ ["STT 오류: " ++ e]
          processing_steps := s.processing_steps ++ ["stt_failed"]
          processing_time := dictInsert s.processing_time "stt" B.sttFailElapsed } ∧
      sttDummyText ≠ "") ∧
    (clean B s.original_text = .error e →
      cleaning_node B s =
        { s with
          error_messages := s.error_messages ++ ["정리 오류: " ++ e]
          processing_steps := s.processing_steps ++ ["cleaning_failed"] }) ∧
    (organize B s.cleaned_text = .error e →
      organizing_node B s =
        { s with
          error_messages := s.error_messages ++ ["구조화 오류: " ++ e]
          processing_steps := s.processing_steps ++ ["organizing_failed"] }) ∧
    (storyContentOf s.organized_story s.cleaned_text >>= extract_tags B = .error e →
      tagging_node B s =
        { s with
          error_messages := s.error_messages ++ ["태깅 오류: " ++ e]
          processing_steps := s.processing_steps ++ ["tagging_failed"] }) ∧
    (runGraph B s).processing_steps.length = s.processing_steps.length + 4 := by
  refine ⟨fun h => ⟨stt_node_err B s e h, by decide⟩,
          fun h => cleaning_node_err B s e h,
          fun h => organizing_node_err B s e h,
          fun h => tagging_node_err B s e h, ?_⟩
  obtain ⟨m1, h1, -⟩ := stt_node_step B s
  obtain ⟨m2, h2, -⟩ := cleaning_node_step B (stt_node B s)
  obtain ⟨m3, h3, -⟩ := organizing_node_step B (cleaning_node B (stt_node B s))
  obtain ⟨m4, h4, -⟩ :=
    tagging_node_step B (organizing_node B (cleaning_node B (stt_node B s)))
  show (tagging_node B (organizing_node B (cleaning_node B
    (stt_node B s)))).processing_steps.length = s.processing_steps.length + 4
  rw [h4, h3, h2, h1]
  simp

/-- Witness for C4 (amended): the cleanup-failure branch at a concrete
behavior and state. -/
theorem C4_stage_failure_capture_witness :
    clean cleanFailB (stt_node cleanFailB (initialState "a.wav" "sid")).original_text =
      .error "LLM connection error" ∧
    cleaning_node cleanFailB (stt_node cleanFailB (initialState "a.wav" "sid")) =
      { stt_node cleanFailB (initialState "a.wav" "sid") with
        error_messages :=
          (stt_node cleanFailB (initialState "a.wav" "sid")).error_messages ++
            ["정리 오류: " ++ "LLM connection error"]
        processing_steps :=
          (stt_node cleanFailB (initialState "a.wav" "sid")).processing_steps ++
            ["cleaning_failed"] } :=
  ⟨rfl,
   (C4_stage_failure_capture cleanFailB
      (stt_node cleanFailB (initialState "a.wav" "sid")) "LLM connection error").2.1 rfl⟩

/-- C5: if the recognition collaborator raises and every later stage
succeeds, the terminal state's original text is the non-empty dummy
placeholder, the cleanup/structuring/tagging stages still run on it, the
error list contains exactly the one recognition entry, and the returned
Result has `success = false`. -/
theorem C5_stt_failure_run (B : Behavior) (audio sid e res : String)
    (j : Json) (sc tg : String)
    (h1 : B.transcribe audio = .error e)
    (h2 : B.cleanRun sttDummyText = .ok res)
    (h3 : organize B (pyStrip res) = .ok j)
    (h4 : storyContentOf j (pyStrip res) = .ok sc)
    (h5 : B.tagRun sc = .ok tg) :
    (runGraph B (initialState audio sid)).original_text = sttDummyText ∧
    sttDummyText ≠ "" ∧
    (runGraph B (initialState audio sid)).cleaned_text = pyStrip res ∧
    (runGraph B (initialState audio sid)).error_messages = ["STT 오류: " ++ e] ∧
    (runGraph B (initialState audio sid)).processing_steps =
      ["stt_failed", "cleaning_complete", "organizing_complete", "tagging_complete"] ∧
    (process_voice B .ok audio sid).success = false := by
  have h2' : clean B sttDummyText =
      .ok { cleaned_text := pyStrip res
            removed_fillers :=
              filler_words.filter (fun w => strIn w sttDummyText && !strIn w res)
            reduction_rate :=
              1 - (res.length : Rat) / ((sttDummyText : String).length : Rat) } :=
    clean_ok B sttDummyText res h2 (by decide)
  have h5' : extract_tags B sc = .ok ((dedupFirst (findHashtags tg)).take 8) := by
    simp [extract_tags, h5]
  have hrun : runGraph B (initialState audio sid) =
      tagging_node B (organizing_node B (cleaning_node B
        (stt_node B (initialState audio sid)))) := rfl
  rw [hrun,
    stt_node_err B (initialState audio sid) e h1,
    cleaning_node_ok B _ _ h2',
    organizing_node_ok B _ j h3,
    tagging_node_ok B _ sc ((dedupFirst (findHashtags tg)).take 8) h4 h5']
  refine ⟨rfl, by decide, rfl, by simp [initialState], by simp [initialState], ?_⟩
  show (assembleResult sid (runGraph B (initialState audio sid))).success = false
  rw [hrun,
    stt_node_err B (initialState audio sid) e h1,
    cleaning_node_ok B _ _ h2',
    organizing_node_ok B _ j h3,
    tagging_node_ok B _ sc ((dedupFirst (findHashtags tg)).take 8) h4 h5']
  simp [assembleResult, initialState]

/-- Witness for C5 at a concrete behavior whose STT raises and whose
other collaborators succeed. -/
theorem C5_stt_failure_run_witness :
    sttFailB.transcribe "a.wav" = .error "whisper crashed" ∧
    (runGraph sttFailB (initialState "a.wav" "sid")).error_messages =
      ["STT 오류: " ++ "whisper crashed"] ∧
    (process_voice sttFailB .ok "a.wav" "sid").success = false := by
  have h := C5_stt_failure_run sttFailB "a.wav" "sid" "whisper crashed"
    "더미 텍스트 정리 결과입니다"
    (fallbackStory (pyStrip "더미 텍스트 정리 결과입니다"))
    (pyStrip "더미 텍스트 정리 결과입니다") "#더미 #텍스트"
    rfl rfl rfl rfl rfl
  exact ⟨rfl, h.2.2.2.1, h.2.2.2.2.2⟩

/-- C7: `extract_tags` returns the hashtag matches of the collaborator
output deduplicated preserving first-seen order (a duplicate-free
subsequence of the raw match list, into which every raw match
deduplicates), and the returned list never exceeds 8 entries. -/
theorem C7_extract_tags (B : Behavior) (story out : String) (tags : List String)
    (h1 : B.tagRun story = .ok out)
    (h2 : extract_tags B story = .ok tags) :
    tags.Nodup ∧ tags.length ≤ 8 ∧ tags.Sublist (findHashtags out) ∧
    ∀ t ∈ findHashtags out, t ∈ dedupFirst (findHashtags out) := by
  have htags : tags = (dedupFirst (findHashtags out)).take 8 := by
    simp [extract_tags, h1] at h2
    exact h2.symm
  subst htags
  refine ⟨List.Nodup.sublist (List.take_sublist 8 _) (dedupFirst_nodup _),
    List.length_take_le 8 _,
    (List.take_sublist 8 _).trans (dedupFirst_sublist _),
    fun t ht => mem_dedupFirst _ t ht⟩

/-- Witness for C7 on a collaborator output with 11 raw matches
containing a duplicate: the result is capped at 8 and duplicate-free. -/
theorem C7_extract_tags_witness :
    manyTagsB.tagRun "스토리" = .ok "#a #b #a #c #d #e #f #g #h #i #j" ∧
    extract_tags manyTagsB "스토리" =
      .ok ["#a", "#b", "#c", "#d", "#e", "#f", "#g", "#h"] ∧
    (findHashtags "#a #b #a #c #d #e #f #g #h #i #j").length = 11 ∧
    (["#a", "#b", "#c", "#d", "#e", "#f", "#g", "#h"] : List String).Nodup ∧
    (["#a", "#b", "#c", "#d", "#e", "#f", "#g", "#h"] : List String).length ≤ 8 := by
  have h := C7_extract_tags manyTagsB "스토리" "#a #b #a #c #d #e #f #g #h #i #j"
    ["#a", "#b", "#c", "#d", "#e", "#f", "#g", "#h"] rfl rfl
  exact ⟨rfl, rfl, rfl, h.1, h.2.1⟩

/-- C8 counterexample: the structuring collaborator returns `"[]"`, valid
JSON that is not the expected structured shape (`json.loads("[]")` is the
empty array); `organize` returns that array as-is, not the single-section
fallback document — the fallback fires only on a JSON decode error. -/
theorem C8_counterexample :
    wrongShapeB.organizeRun "이야기 본문" = .ok "[]" ∧
    wrongShapeB.jsonLoads "[]" = some (Json.arr []) ∧
    organize wrongShapeB "이야기 본문" = .ok (Json.arr []) ∧
    Json.arr [] ≠ fallbackStory "이야기 본문" ∧
    storySections (Json.arr []) = none :=
  ⟨rfl, rfl, rfl, fun h => Json.noConfusion h, rfl⟩

/-- C8 (amended): `organize` returns the fallback document exactly when
the collaborator output fails to parse as JSON (`json.loads` raises); the
fallback has exactly one section whose content equals the raw cleaned
input text, and its concatenated section content is that text — valid
JSON of an unexpected shape is returned unchanged instead. -/
theorem C8_organize_fallback (B : Behavior) (text out : String)
    (h1 : B.organizeRun text = .ok out) (h2 : B.jsonLoads out = none) :
    organize B text = .ok (fallbackStory text) ∧
    storySections (fallbackStory text) =
      some (Json.arr
        [ Json.obj
            [ ("section_title", .str "메인 스토리")
            , ("content", .str text)
            , ("key_points", .arr []) ] ]) ∧
    (∀ cleaned, storyContentOf (fallbackStory text) cleaned = .ok text) :=
  ⟨by simp [organize, h1, h2], rfl, fun cleaned => rfl⟩

/-- Witness for C8 (amended) at a concrete non-JSON collaborator output. -/
theorem C8_organize_fallback_witness :
    demoOkB.organizeRun "본문" = .ok "구조화된 이야기 (not JSON)" ∧
    demoOkB.jsonLoads "구조화된 이야기 (not JSON)" = none ∧
    organize demoOkB "본문" = .ok (fallbackStory "본문") :=
  ⟨rfl, rfl, (C8_organize_fallback demoOkB "본문" "구조화된 이야기 (not JSON)" rfl rfl).1⟩

/-- C10: `clean` has no guard on the length of its input, so on the empty
string the `reduction_rate` division raises `ZeroDivisionError`; a run
whose recognition stage yields an empty transcription therefore takes the
cleanup stage's error branch, leaving `cleaned_text` at its initial empty
value and recording one cleanup error. -/
theorem C10_empty_transcription (B : Behavior) (audio sid : String)
    (conf t : Rat) (res : String)
    (h1 : B.transcribe audio = .ok ("", conf, t))
    (h2 : B.cleanRun "" = .ok res) :
    clean B "" = .error "division by zero" ∧
    (cleaning_node B (stt_node B (initialState audio sid))).cleaned_text = "" ∧
    (cleaning_node B (stt_node B (initialState audio sid))).error_messages =
      ["정리 오류: " ++ "division by zero"] ∧
    (cleaning_node B (stt_node B (initialState audio sid))).processing_steps =
      ["stt_complete", "cleaning_failed"] := by
  have hclean : clean B "" = .error "division by zero" := by simp [clean, h2]
  have e1 := stt_node_ok B (initialState audio sid) "" conf t h1
  refine ⟨hclean, ?_, ?_, ?_⟩ <;>
    rw [e1, cleaning_node_err B _ "division by zero" hclean] <;>
    simp [initialState]

/-- Witness for C10 at a concrete behavior with an empty transcription. -/
theorem C10_empty_transcription_witness :
    emptySttB.transcribe "a.wav" = .ok ("", 1/2, 1) ∧
    emptySttB.cleanRun "" = .ok "정리됨" ∧
    clean emptySttB "" = .error "division by zero" ∧
    (cleaning_node emptySttB (stt_node emptySttB (initialState "a.wav" "sid"))).error_messages =
      ["정리 오류: " ++ "division by zero"] := by
  have h := C10_empty_transcription emptySttB "a.wav" "sid" (1/2) 1 "정리됨" rfl rfl
  exact ⟨rfl, rfl, h.1, h.2.2.1⟩

/-- C1: validation rejects a missing or oversized input with a distinct
failed Result whose value does not depend on any stage (so no stage
executes); for valid input the workflow runs, and `process_voice` — a
total function, so it never raises to its caller — returns the graph-path
Result when invoke succeeds, the fallback executor's Result when invoke
raises and the sequential fallback succeeds, and, when the fallback also
raises, a failed Result whose message concatenates the engine error
description and the fallback error description. -/
theorem C1_run_never_raises (B : Behavior) (eng : EngineOutcome) (fi : FileInfo)
    (maxMB : Rat) (audio sid e fe : String) (r : ProcessingResult) :
    (fi.fileExists = false →
      process_audio_file B eng fi maxMB audio sid = missingFileResult ∧
      missingFileResult.success = false) ∧
    (fi.fileExists = true → fi.sizeMB > maxMB →
      process_audio_file B eng fi maxMB audio sid = oversizedResult fi.sizeMB maxMB ∧
      (oversizedResult fi.sizeMB maxMB).success = false) ∧
    (fi.fileExists = true → ¬ fi.sizeMB > maxMB →
      process_audio_file B eng fi maxMB audio sid = process_voice B eng audio sid) ∧
    (process_voice B .ok audio sid =
      assembleResult sid (runGraph B (initialState audio sid))) ∧
    (fallbackRun B audio sid = .ok r →
      process_voice B (.raise e) audio sid = r) ∧
    (fallbackRun B audio sid = .error fe →
      process_voice B (.raise e) audio sid =
        { success := false
          session_id := sid
          error_message :=
            "워크플로우 실행 오류: " ++ e ++ ", Fallback 오류: " ++ fe }) := by
  refine ⟨?_, ?_, ?_, rfl, ?_, ?_⟩
  · intro h; exact ⟨by simp [process_audio_file, h], rfl⟩
  · intro h1 h2; exact ⟨by simp [process_audio_file, h1, h2], rfl⟩
  · intro h1 h2; simp [process_audio_file, h1, h2]
  · intro h; simp [process_voice, h]
  · intro h; simp [process_voice, h]

/-- Witness for C1: the missing-file validation branch, and the
engine-raise-then-fallback-raise branch, at concrete inputs. -/
theorem C1_run_never_raises_witness :
    (FileInfo.mk false 0).fileExists = false ∧
    process_audio_file sttFailB .ok (FileInfo.mk false 0) 50 "a.wav" "sid" =
      missingFileResult ∧
    fallbackRun sttFailB "a.wav" "sid" = .error "whisper crashed" ∧
    process_voice sttFailB (.raise "GraphRecursionError") "a.wav" "sid" =
      { success := false
        session_id := "sid"
        error_message :=
          "워크플로우 실행 오류: " ++ "GraphRecursionError" ++
            ", Fallback 오류: " ++ "whisper crashed" } := by
  refine ⟨rfl, ?_, rfl, ?_⟩
  · exact ((C1_run_never_raises sttFailB .ok (FileInfo.mk false 0) 50 "a.wav" "sid"
      "" "" missingFileResult).1 rfl).1
  · exact (C1_run_never_raises sttFailB .ok (FileInfo.mk false 0) 50 "a.wav" "sid"
      "GraphRecursionError" "whisper crashed" missingFileResult).2.2.2.2.2 rfl
